import Mathlib

/-!
Verification of the preflighter checklist execution engine (src/main.go)
against its design specification.

The engine is embedded shallowly: external collaborators (the `util`
package: checklist loading, the runbook client transport, the UX layer,
the runner) are modelled as oracle functions packaged into "world"
structures, while every control-flow and data decision made in
`main.go` itself is translated line by line into total Lean functions.
-/

namespace Preflighter

/-! ## Data model (spec section 3; fields used by src/main.go) -/

/-- One checkable unit. `RunbookID` / `RunbookStep` are the optional
linkage to a remote tracking entry (empty string means unlinked). -/
structure ChecklistItem where
  Title : String
  RunbookID : String
  RunbookStep : String
  deriving Repr, DecidableEq

/-- One loaded or synthesized checklist source.  `Env` maps variable
names to requirement markers; Go's map is modelled as an association
list (iteration order is irrelevant to the properties proved here
because entries are resolved independently). -/
structure ChecklistFile where
  Title : String
  Filename : String
  Env : List (String × String)
  Checklist : List ChecklistItem
  RunbookSteps : List String
  deriving Repr, DecidableEq

/-- The zero value of `ChecklistItem` (what Go's runtime stores in
backing-array slots beyond a slice's length). -/
def zeroItem : ChecklistItem := ⟨"", "", ""⟩

/-! ## String helpers mirroring the Go standard library calls in main.go -/

/-- Mirrors `strings.HasPrefix s pre`. -/
def strStarts (s pre : String) : Bool :=
  pre.toList.isPrefixOf s.toList

/-- The cutset of `strings.TrimRight(string(out), "\n\r\t ")` at
src/main.go line 87. -/
def trimCutset : List Char := ['\n', '\r', '\t', ' ']

/-- Mirrors `strings.TrimRight(s, "\n\r\t ")`: removes trailing
characters belonging to the cutset. -/
def goTrimRight (s : String) : String :=
  String.mk ((s.toList.reverse.dropWhile (fun c => trimCutset.contains c)).reverse)

/-- Go byte-slicing `value[2 : len(value)-1]` as performed at
src/main.go line 80 (character-faithful for ASCII markers): drop the
two leading marker characters and the final character. -/
def markerCmd (value : String) : String :=
  String.mk ((value.toList.drop 2).dropLast)

/-! ## EnvironmentResolver (src/main.go lines 71-99) -/

/-- Result of `exec.Command("bash", "-c", cmd).Output()`: captured
stdout plus an optional error. Go's `Output` returns the collected
stdout bytes even when it also returns an error. -/
structure ExecOut where
  out : String
  err : Option String
  deriving Repr, DecidableEq

/-- The ambient world the resolver runs in: the shell used to resolve
command markers and the process environment (`os.Getenv`; Go returns
the empty string for an unset variable). -/
structure EnvWorld where
  exec : String → ExecOut
  getenv : String → String

/-- Resolution of a single Env entry: src/main.go lines 74-94.
Returns the value stored back into `file.Env[key]` together with
whether a resolution failure was recorded for this entry.
Faithful details: a value shorter than 3 characters with the marker
head is replaced by the empty string with no failure (lines 75-78);
a command marker always stores the trimmed captured output, error or
not (line 87 runs unconditionally); a bare required marker is checked
against the process environment but the stored value is NOT modified
(lines 89-94 never assign to `file.Env[key]`). -/
def resolveValue (w : EnvWorld) (key value : String) : String × Bool :=
  if strStarts value "$\x7b" then
    if value.length < 3 then
      ("", false)
    else
      let cmd := markerCmd value
      let r := w.exec cmd
      (goTrimRight r.out, r.err.isSome)
  else if value = "<" then
    (value, w.getenv key == "")
  else
    (value, false)

/-- Resolution of every entry of one file's Env map (the inner loop of
src/main.go lines 73-95); the Bool accumulates whether any entry of
this file recorded a failure. The loop never breaks. -/
def resolveFile (w : EnvWorld) : List (String × String) → List (String × String) × Bool
  | [] => ([], false)
  | (k, v) :: rest =>
    let r := resolveValue w k v
    let rr := resolveFile w rest
    ((k, r.1) :: rr.1, r.2 || rr.2)

/-- Resolution across all loaded checklist files (the outer loop of
src/main.go lines 72-96): every file is visited and the `failed` flag
accumulates across files; no failure stops the pass. -/
def resolveEnvAll (w : EnvWorld) : List ChecklistFile → List ChecklistFile × Bool
  | [] => ([], false)
  | file :: rest =>
    let r := resolveFile w file.Env
    let rr := resolveEnvAll w rest
    ({ file with Env := r.1 } :: rr.1, r.2 || rr.2)

/-! ## ItemExecutor (src/main.go lines 178-238) -/

/-- Return tuple of `RunItemCheck(&item, runner)` (src/main.go line
192): `value, serr, ok, err`. -/
structure CheckRes where
  value : String
  serr : String
  ok : Bool
  err : Option String
  deriving Repr, DecidableEq

/-- The captured output handed back by the interactive UX collaborator
(`UxCheckItem`, src/main.go line 206). -/
structure UxRes where
  Stdout : String
  Stderr : String
  deriving Repr, DecidableEq

/-- The external collaborators the executor drives for a given run:
the check-ability predicate, the runner-backed automated check, and
the interactive UX decision. -/
structure ItemWorld where
  CanCheckItem : ChecklistItem → Bool
  RunItemCheck : ChecklistItem → CheckRes
  UxCheckItem : ChecklistItem → Bool × UxRes

/-- Observable actions of the executor, in program order: rendered item
outcomes (`UxBlankItem`, `UxSkipItem`, `UxFailItem`, `UxPassItem`),
invocations of the runner / interactive UX, and remote
`runbook.ChecklistItemUpdate` calls. A `update` event records the
client the call went through (`none` = the nil `*RunbookClient`). -/
inductive Event where
  | blank (it : ChecklistItem)
  | skip (it : ChecklistItem) (reason : String)
  | fail (it : ChecklistItem) (msg serr : String)
  | pass (it : ChecklistItem) (value : String)
  | runnerInvoke (it : ChecklistItem)
  | uxInvoke (it : ChecklistItem)
  | update (client : Option Unit) (step id : String) (status : Nat) (note : String)
  deriving Repr, DecidableEq

/-- Whether an event is a rendered `Blank` outcome. -/
def Event.isBlank : Event → Bool
  | .blank _ => true
  | _ => false

/-- Whether an event is a remote `ChecklistItemUpdate` call. -/
def Event.isUpdate : Event → Bool
  | .update _ _ _ _ _ => true
  | _ => false

/-- Whether an event executes the item (invokes the runner directly or
delegates to the interactive UX, which drives the runner). -/
def Event.isInvoke : Event → Bool
  | .runnerInvoke _ => true
  | .uxInvoke _ => true
  | _ => false

/-- The note built for a failed interactive item at src/main.go
line 210. -/
def failReason (result : UxRes) : String :=
  "Script failed with:\n```\n" ++ result.Stdout ++ "\n---\n" ++ result.Stderr ++ "\n```\n"

/-- The body of the active-region loop for one item, src/main.go lines
183-227, given the current `failure` flag.  Returns the events this
item produces (in order) and the updated flag.  Faithful details: an
already-set flag short-circuits into `Skipped:"ABORTED"` with no
execution (lines 183-184); unattended mode branches on `CanCheckItem`
then on the check error / ok result (lines 187-202) and never touches
the runbook client; interactive mode gets the decision from
`UxCheckItem`, reports `Failed` (status 2) only when `RunbookID` is
nonempty, but reports `Completed` (status 1) unconditionally — with
whatever client is in scope, including the nil one (lines 204-226). -/
def processItem (w : ItemWorld) (auto : Bool) (runbook : Option Unit)
    (it : ChecklistItem) (failure : Bool) : List Event × Bool :=
  if failure then
    ([Event.skip it "ABORTED"], true)
  else if auto then
    if !w.CanCheckItem it then
      ([Event.skip it "NO CHECKS"], false)
    else
      let r := w.RunItemCheck it
      match r.err with
      | some e => ([Event.runnerInvoke it, Event.fail it e r.serr], true)
      | none =>
        if !r.ok then
          ([Event.runnerInvoke it, Event.fail it r.value r.serr], true)
        else
          ([Event.runnerInvoke it, Event.pass it r.value], false)
  else
    let u := w.UxCheckItem it
    if !u.1 then
      if it.RunbookID ≠ "" then
        ([Event.uxInvoke it,
          Event.update runbook it.RunbookStep it.RunbookID 2 (failReason u.2)], true)
      else
        ([Event.uxInvoke it], true)
    else
      ([Event.uxInvoke it, Event.update runbook it.RunbookStep it.RunbookID 1 ""], false)

/-- The active-region loop (src/main.go lines 182-228): processes the
items in order, threading the `failure` flag; the result keeps each
item's events in its own slot. -/
def runActive (w : ItemWorld) (auto : Bool) (runbook : Option Unit) :
    List ChecklistItem → Bool → List (List Event) × Bool
  | [], failure => ([], failure)
  | it :: rest, failure =>
    let p := processItem w auto runbook it failure
    let r := runActive w auto runbook rest p.2
    (p.1 :: r.1, r.2)

/-- The executor for an in-range skip count (0 ≤ s ≤ n): the Go slice
expressions `allItems[:s]` and `allItems[s:]` coincide with take/drop
there.  First loop renders the first `s` items `Blank` (lines
179-181), second loop runs the active region (lines 182-228). -/
def runItems (w : ItemWorld) (auto : Bool) (runbook : Option Unit)
    (allItems : List ChecklistItem) (s : Nat) : List Event × Bool :=
  let blanks := (allItems.take s).map Event.blank
  let r := runActive w auto runbook (allItems.drop s) false
  (blanks ++ r.1.flatten, r.2)

/-- The final exit status chosen at src/main.go lines 230-238. -/
def exitOfFailure (failure : Bool) : Nat :=
  if failure then 1 else 0

/-- The run phase with Go slice-expression semantics, for arbitrary
(possibly out-of-range) skip counts: `allItems` has length `n` and a
backing array of capacity `cap ≥ n` whose slots beyond `n` hold the
zero value.  `allItems[:s]` (line 179) is legal when `0 ≤ s ≤ cap` and
yields backing-array elements; `allItems[s:]` (line 182) is legal when
`0 ≤ s ≤ n`.  Returns the events emitted before termination together
with either the slice-bounds panic or the final failure flag. -/
def runPhaseGo (w : ItemWorld) (auto : Bool) (runbook : Option Unit)
    (allItems : List ChecklistItem) (cap : Nat) (s : Int) :
    List Event × Except String Bool :=
  if s < 0 ∨ (cap : Int) < s then
    ([], Except.error "slice bounds out of range")
  else
    let sn := s.toNat
    let backing := allItems ++ List.replicate (cap - allItems.length) zeroItem
    let blanks := (backing.take sn).map Event.blank
    if allItems.length < sn then
      (blanks, Except.error "slice bounds out of range")
    else
      let r := runActive w auto runbook (allItems.drop sn) false
      (blanks ++ r.1.flatten, Except.ok r.2)

/-! ## The full main flow (src/main.go lines 14-238) -/

/-- How the process terminates: a plain `return` from `main` (the Go
runtime then exits with status 0), an explicit `os.Exit`, or a runtime
panic (the Go runtime exits with status 2). -/
inductive ExitKind where
  | ret
  | exit (code : Nat)
  | panicked (msg : String)
  deriving Repr, DecidableEq

/-- The process exit status produced by each termination kind. -/
def ExitKind.status : ExitKind → Nat
  | .ret => 0
  | .exit code => code
  | .panicked _ => 2

/-- Everything external that `main` consults, as oracles: the `util`
package collaborators plus the capacity of the backing array that the
`append` calls building `allItems` (lines 171-176) produced. -/
structure MainWorld where
  envW : EnvWorld
  itemW : ItemWorld
  LoadChecklist : String → Except String ChecklistFile
  CreateRunbookClient : Except String Unit
  ChecklistFromRunbook : String → Except String (List ChecklistItem)
  CreateConfig : Except String Unit
  AddChecklistFile : ChecklistFile → Except String Unit
  CreateRunner : Except String Unit
  GetMissingTools : List String
  sliceCap : Nat

/-- The command-line flags of src/main.go lines 18-21. -/
structure Flags where
  temp : String
  s : Int
  l : Bool
  a : Bool
  deriving Repr, DecidableEq

/-- The observable outcome of one run of `main`: how the process
terminated, the message of the `UxPrintError` call on the terminating
path (if any), the missing-tool names printed at lines 160-162,
whether the `-l` listing ran, and the executor's event trace. -/
structure MainOutcome where
  exit : ExitKind
  errors : List String
  printedMissing : List String
  listed : Bool
  trace : List Event
  deriving Repr, DecidableEq

/-- The checklist-reading loop, src/main.go lines 29-59: a
`runbook:`-prefixed argument synthesizes a single-step checklist and
forces `useRunbook`; any other argument is loaded (a load error aborts
the loop); a loaded checklist forces `useRunbook` when it declares
remote steps or any of its items carries a `RunbookID`.  Returns the
files in argument order together with the accumulated `useRunbook`. -/
def loadPhase (w : MainWorld) : List String → Except String (List ChecklistFile × Bool)
  | [] => Except.ok ([], false)
  | fname :: rest =>
    if strStarts fname "runbook:" then
      let stepId := String.mk (fname.toList.drop 8)
      let file : ChecklistFile :=
        { Title := "Runbook Checklist", Filename := "", Env := [],
          Checklist := [], RunbookSteps := [stepId] }
      match loadPhase w rest with
      | .error e => .error e
      | .ok r => .ok (file :: r.1, true)
    else
      match w.LoadChecklist fname with
      | .error e => .error e
      | .ok checklist =>
        let ub := decide (0 < checklist.RunbookSteps.length)
          || checklist.Checklist.any (fun step => step.RunbookID ≠ "")
        match loadPhase w rest with
        | .error e => .error e
        | .ok r => .ok (checklist :: r.1, ub || r.2)

/-- The remote-step fetch loop for one file's `RunbookSteps`
(src/main.go lines 104-112): fetched items are appended in step order;
the first fetch error is fatal, reported with its step id. -/
def fetchSteps (w : MainWorld) : List String → Except (String × String) (List ChecklistItem)
  | [] => .ok []
  | step :: rest =>
    match w.ChecklistFromRunbook step with
    | .error e => .error (step, e)
    | .ok items =>
      match fetchSteps w rest with
      | .error e => .error e
      | .ok more => .ok (items ++ more)

/-- Remote-step expansion across all files (src/main.go lines
102-114): each file's fetched items are appended to its own
`Checklist`. -/
def expandFiles (w : MainWorld) : List ChecklistFile → Except (String × String) (List ChecklistFile)
  | [] => .ok []
  | file :: rest =>
    match fetchSteps w file.RunbookSteps with
    | .error e => .error e
    | .ok items =>
      match expandFiles w rest with
      | .error e => .error e
      | .ok more => .ok ({ file with Checklist := file.Checklist ++ items } :: more)

/-- The `AddChecklistFile` loop of src/main.go lines 140-146. -/
def addFiles (w : MainWorld) : List ChecklistFile → Except String Unit
  | [] => .ok ()
  | file :: rest =>
    match w.AddChecklistFile file with
    | .error e => .error e
    | .ok _ => addFiles w rest

/-- A `MainOutcome` for a path that terminates before the executor
runs. -/
def stopped (exit : ExitKind) (errors : List String) : MainOutcome :=
  { exit := exit, errors := errors, printedMissing := [], listed := false, trace := [] }

/-- The whole of `main` (src/main.go lines 14-238), given the external
world, the parsed flags and the positional arguments.  Every
`UxPrintError`-then-`return` path of the source terminates with
`ExitKind.ret` (Go exits 0 on a plain return from main); the explicit
`os.Exit` calls carry their code; an out-of-range skip count surfaces
as `ExitKind.panicked` from the slice expressions of lines 179/182. -/
def mainModel (w : MainWorld) (flags : Flags) (args : List String) : MainOutcome :=
  if args.length = 0 then
    stopped .ret ["Please specify one or more checklists to process"]
  else
    match loadPhase w args with
    | .error e => stopped .ret [e]
    | .ok loaded =>
      let checklistFiles := loaded.1
      let useRunbook := loaded.2
      match (if useRunbook then
               match w.CreateRunbookClient with
               | .error e => .error ("Could not use runbook: " ++ e)
               | .ok _ => .ok (some ())
             else .ok none : Except String (Option Unit)) with
      | .error e => stopped (.exit 1) [e]
      | .ok runbook =>
        let resolved := resolveEnvAll w.envW checklistFiles
        if resolved.2 then
          stopped (.exit 1) []
        else
          match expandFiles w resolved.1 with
          | .error se =>
            stopped (.exit 1)
              ["Could not fetch checklist for step " ++ se.1 ++ ": " ++ se.2]
          | .ok files =>
            if flags.l then
              { exit := .exit 0, errors := [], printedMissing := [],
                listed := true, trace := [] }
            else
              match w.CreateConfig with
              | .error e => stopped .ret [e]
              | .ok _ =>
                match addFiles w files with
                | .error e => stopped .ret [e]
                | .ok _ =>
                  match w.CreateRunner with
                  | .error e => stopped .ret [e]
                  | .ok _ =>
                    if 0 < w.GetMissingTools.length then
                      { exit := .ret,
                        errors := ["There are missing executables from your path:"],
                        printedMissing := w.GetMissingTools,
                        listed := false, trace := [] }
                    else
                      let allItems := (files.map ChecklistFile.Checklist).flatten
                      let r := runPhaseGo w.itemW flags.a runbook allItems w.sliceCap flags.s
                      match r.2 with
                      | .error msg =>
                        { exit := .panicked msg, errors := [],
                          printedMissing := [], listed := false, trace := r.1 }
                      | .ok failure =>
                        { exit := .exit (exitOfFailure failure), errors := [],
                          printedMissing := [], listed := false, trace := r.1 }

/-! ## Helper lemmas about the executor loop -/

/-- An item encountered with the failure flag already set is rendered
`Skipped:"ABORTED"` and nothing else happens to it. -/
theorem processItem_flagged (w : ItemWorld) (auto : Bool) (rb : Option Unit)
    (it : ChecklistItem) :
    processItem w auto rb it true = ([Event.skip it "ABORTED"], true) := rfl

/-- `processItem` never renders a `Blank` outcome: blanks belong
exclusively to the pre-skip region loop. -/
theorem processItem_no_blank (w : ItemWorld) (auto : Bool) (rb : Option Unit)
    (it : ChecklistItem) (f : Bool) :
    ((processItem w auto rb it f).1.all fun e => !e.isBlank) = true := by
  unfold processItem
  repeat' (first | rfl | split | dsimp only)

/-- Unattended mode never emits a remote `ChecklistItemUpdate` call. -/
theorem processItem_auto_no_update (w : ItemWorld) (rb : Option Unit)
    (it : ChecklistItem) (f : Bool) :
    ((processItem w true rb it f).1.all fun e => !e.isUpdate) = true := by
  unfold processItem
  repeat' (first | rfl | split | dsimp only)
  all_goals simp_all

/-- With the failure flag set, the rest of the active region is skipped
with reason `ABORTED`, one event per item, and the flag stays set. -/
theorem runActive_flagged (w : ItemWorld) (auto : Bool) (rb : Option Unit)
    (l : List ChecklistItem) :
    runActive w auto rb l true = (l.map fun it => [Event.skip it "ABORTED"], true) := by
  induction l with
  | nil => rfl
  | cons it rest ih => simp [runActive, processItem_flagged, ih]

/-- The active-region loop distributes over list concatenation,
threading the failure flag. -/
theorem runActive_append (w : ItemWorld) (auto : Bool) (rb : Option Unit)
    (l₁ l₂ : List ChecklistItem) (f : Bool) :
    runActive w auto rb (l₁ ++ l₂) f =
      ((runActive w auto rb l₁ f).1 ++
         (runActive w auto rb l₂ (runActive w auto rb l₁ f).2).1,
       (runActive w auto rb l₂ (runActive w auto rb l₁ f).2).2) := by
  induction l₁ generalizing f with
  | nil => simp [runActive]
  | cons it rest ih => simp [runActive, ih]

/-- Every active-region item gets exactly one event slot. -/
theorem runActive_length (w : ItemWorld) (auto : Bool) (rb : Option Unit)
    (l : List ChecklistItem) (f : Bool) :
    (runActive w auto rb l f).1.length = l.length := by
  induction l generalizing f with
  | nil => rfl
  | cons it rest ih => simp [runActive, ih]

/-- The active region never renders a `Blank` outcome. -/
theorem runActive_no_blank (w : ItemWorld) (auto : Bool) (rb : Option Unit)
    (l : List ChecklistItem) (f : Bool) :
    ((runActive w auto rb l f).1.flatten.all fun e => !e.isBlank) = true := by
  induction l generalizing f with
  | nil => rfl
  | cons it rest ih =>
    simp only [runActive, List.flatten_cons, List.all_append, Bool.and_eq_true]
    exact ⟨processItem_no_blank w auto rb it f, ih _⟩

/-- A run of `Skipped:"ABORTED"` slots contains no execution events. -/
theorem aborted_slots_no_invoke (post : List ChecklistItem) :
    ((post.map fun j => [Event.skip j "ABORTED"]).flatten.all fun e => !e.isInvoke) = true := by
  induction post with
  | nil => rfl
  | cons j rest ih =>
    simp [Event.isInvoke, ih]

/-! ## Concrete sample data for witnesses and counterexamples -/

/-- A plain unlinked item. -/
def itemA : ChecklistItem := ⟨"first item", "", ""⟩

/-- An unlinked item whose automated check fails under `sampleItemW`. -/
def itemB : ChecklistItem := ⟨"second item", "", ""⟩

/-- Another plain unlinked item. -/
def itemC : ChecklistItem := ⟨"third item", "", ""⟩

/-- An item carrying a remote linkage (both fields set). -/
def itemLinked : ChecklistItem := ⟨"linked item", "RB-1", "ST-1"⟩

/-- A sample shell/environment world: `boom` fails, any other command
prints `hi`; only the variable `SET` is present in the process
environment. -/
def sampleEnvW : EnvWorld where
  exec := fun cmd => if cmd = "boom" then ⟨"", some "exit status 1"⟩ else ⟨"hi\n", none⟩
  getenv := fun key => if key = "SET" then "x" else ""

/-- Sample collaborators: every item is checkable, `itemB`'s check
fails cleanly, every other check passes; interactively the operator
passes every item except `itemB`. -/
def sampleItemW : ItemWorld where
  CanCheckItem := fun _ => true
  RunItemCheck := fun it =>
    if it = itemB then ⟨"bad", "boom-err", false, none⟩ else ⟨"ok", "", true, none⟩
  UxCheckItem := fun it => (it != itemB, ⟨"captured-out", "captured-err"⟩)

/-- A one-item local checklist with no Env entries and no remote
linkage. -/
def fileA : ChecklistFile := ⟨"Demo", "demo.yaml", [], [itemA], []⟩

/-- A checklist exercising all three requirement-marker forms plus a
broken command marker; `API_KEY` is absent from `sampleEnvW`'s process
environment and `boom` fails, so resolution records two failures. -/
def fileEnv : ChecklistFile :=
  ⟨"EnvDemo", "env.yaml",
   [("HOME_DIR", "$\x7becho hi\x7d"), ("API_KEY", "<"),
    ("BROKEN", "$\x7bboom\x7d"), ("LIT", "plain")],
   [itemA], []⟩

/-- A sample full world: `demo.yaml` loads `fileA`, anything else
fails to load; every other collaborator succeeds; the one-item
backing array has capacity 1. -/
def sampleMainW : MainWorld where
  envW := sampleEnvW
  itemW := sampleItemW
  LoadChecklist := fun fname =>
    if fname = "demo.yaml" then .ok fileA
    else .error ("open " ++ fname ++ ": no such file or directory")
  CreateRunbookClient := .ok ()
  ChecklistFromRunbook := fun _ => .ok [itemLinked]
  CreateConfig := .ok ()
  AddChecklistFile := fun _ => .ok ()
  CreateRunner := .ok ()
  GetMissingTools := []
  sliceCap := 1

/-- `sampleMainW` with every load returning the Env-exercising
checklist. -/
def envMainW : MainWorld := { sampleMainW with LoadChecklist := fun _ => .ok fileEnv }

/-- Default flags: no temp dir, skip 0, no listing, interactive. -/
def sampleFlags : Flags := ⟨"", 0, false, false⟩

/-! ## Helper lemmas about the environment resolver -/

/-- `resolveFile` is an entry-wise map: each entry's stored value is
determined by that entry alone, and the file's failure bit is the
disjunction of the per-entry failure bits. -/
theorem resolveFile_map (w : EnvWorld) (env : List (String × String)) :
    resolveFile w env =
      (env.map fun kv => (kv.1, (resolveValue w kv.1 kv.2).1),
       env.any fun kv => (resolveValue w kv.1 kv.2).2) := by
  induction env with
  | nil => rfl
  | cons kv rest ih =>
    obtain ⟨k, v⟩ := kv
    simp [resolveFile, ih]

/-- `resolveEnvAll` is a file-wise map: every file's Env is fully
resolved whatever happens elsewhere, and the global failure bit is the
disjunction over all files. -/
theorem resolveEnvAll_map (w : EnvWorld) (files : List ChecklistFile) :
    resolveEnvAll w files =
      (files.map fun f => { f with Env := (resolveFile w f.Env).1 },
       files.any fun f => (resolveFile w f.Env).2) := by
  induction files with
  | nil => rfl
  | cons f rest ih =>
    simp [resolveEnvAll, ih]

/-! ## Claim theorems -/

/-- Claim C1 (code bug evidence). On the interactive success path,
src/main.go lines 218-225 call `runbook.ChecklistItemUpdate`
unconditionally: even for an item with no remote linkage
(`RunbookID`/`RunbookStep` empty) and even when no synchronizer was
instantiated (`runbook` is the nil pointer, modelled as `none`), a
remote `Completed` report is issued — both at the single-item level
and on a full interactive run of a purely local checklist.  The
failure path (lines 209-217) guards on `item.RunbookID != ""`; the
success path has no such guard, contradicting the spec. -/
theorem interactive_pass_updates_unconditionally :
    itemA.RunbookID = "" ∧ itemA.RunbookStep = "" ∧
    processItem sampleItemW false none itemA false =
      ([Event.uxInvoke itemA, Event.update none "" "" 1 ""], false) ∧
    (mainModel sampleMainW sampleFlags ["demo.yaml"]).trace =
      [Event.uxInvoke itemA, Event.update none "" "" 1 ""] :=
  ⟨rfl, rfl, rfl, rfl⟩

/-- Claim C2 (code bug evidence). Each of the three fatal startup
paths named by the claim — no arguments (src/main.go lines 23-26), a
checklist that fails to load (lines 43-46), and missing executables
(lines 156-164) — prints its error and then terminates by a plain
`return` from `main`, which exits with status 0, not the nonzero
status the claim requires. -/
theorem startup_errors_return_status_zero :
    mainModel sampleMainW sampleFlags [] =
      stopped ExitKind.ret ["Please specify one or more checklists to process"] ∧
    mainModel sampleMainW sampleFlags ["missing.yaml"] =
      stopped ExitKind.ret ["open missing.yaml: no such file or directory"] ∧
    (mainModel { sampleMainW with GetMissingTools := ["kubectl"] } sampleFlags
        ["demo.yaml"]).exit = ExitKind.ret ∧
    (mainModel { sampleMainW with GetMissingTools := ["kubectl"] } sampleFlags
        ["demo.yaml"]).printedMissing = ["kubectl"] ∧
    ExitKind.status ExitKind.ret = 0 :=
  ⟨rfl, rfl, rfl, rfl, rfl⟩

/-- Claim C3 counterexample. In unattended mode (src/main.go lines
187-202) a linked item is executed and passes, yet its events contain
no `ChecklistItemUpdate` call: the unattended branch never touches the
runbook client, refuting "in both unattended mode and interactive
mode". -/
theorem auto_mode_no_runbook_update_counterexample :
    itemLinked.RunbookID ≠ "" ∧
    processItem sampleItemW true (some ()) itemLinked false =
      ([Event.runnerInvoke itemLinked, Event.pass itemLinked "ok"], false) ∧
    ((processItem sampleItemW true (some ()) itemLinked false).1.all
        fun e => !e.isUpdate) = true :=
  ⟨by decide, rfl, rfl⟩

/-- Claim C3 as amended: the executor reports a linked item's outcome
to the synchronizer only in interactive mode — there, every executed
linked item produces exactly one `ChecklistItemUpdate` call, after the
UX-driven execution; in unattended mode no item ever produces one. -/
theorem runbook_update_only_interactive :
    (∀ (w : ItemWorld) (rb : Option Unit) (it : ChecklistItem),
       it.RunbookID ≠ "" →
       ∃ status note,
         (processItem w false rb it false).1 =
           [Event.uxInvoke it,
            Event.update rb it.RunbookStep it.RunbookID status note]) ∧
    (∀ (w : ItemWorld) (rb : Option Unit) (it : ChecklistItem) (f : Bool),
       ((processItem w true rb it f).1.all fun e => !e.isUpdate) = true) := by
  constructor
  · intro w rb it h
    by_cases hu : (w.UxCheckItem it).1 = true
    · exact ⟨1, "", by simp [processItem, hu]⟩
    · exact ⟨2, failReason (w.UxCheckItem it).2, by simp [processItem, hu, h]⟩
  · intro w rb it f
    exact processItem_auto_no_update w rb it f

/-- Witness for `runbook_update_only_interactive` at a concrete linked
item executed interactively. -/
theorem runbook_update_only_interactive_witness :
    ∃ status note,
      (processItem sampleItemW false (some ()) itemLinked false).1 =
        [Event.uxInvoke itemLinked,
         Event.update (some ()) itemLinked.RunbookStep itemLinked.RunbookID status note] :=
  runbook_update_only_interactive.1 sampleItemW (some ()) itemLinked (by decide)

/-- An environment world for the C4 counterexample: the variable
`API_KEY` is present (and non-empty) in the process environment. -/
def c4EnvW : EnvWorld where
  exec := fun _ => ⟨"", none⟩
  getenv := fun key => if key = "API_KEY" then "secret" else ""

/-- Claim C4 counterexample. A `<` entry whose variable IS present in
the process environment resolves without failure, yet after resolution
the entry still holds the marker `<` — not the value `secret` found in
the environment: src/main.go lines 89-94 validate but never write the
value back, refuting "a `<` entry holds the value found in the process
environment" and "no entry still holds the marker `<`". -/
theorem env_required_marker_kept_counterexample :
    c4EnvW.getenv "API_KEY" = "secret" ∧
    resolveFile c4EnvW [("API_KEY", "<")] = ([("API_KEY", "<")], false) ∧
    ("<" : String) ≠ "secret" :=
  ⟨rfl, rfl, by decide⟩

/-- Claim C4 as amended: after resolution a `$\x7bcmd\x7d` entry holds
the trimmed output of the command, a literal entry is unchanged, and a
`<` entry still holds the literal marker `<` — resolution only
validates that the variable is non-empty in the process environment
(recording a failure otherwise) and leaves the stored value alone. -/
theorem resolveValue_characterization (w : EnvWorld) (key value : String) :
    (strStarts value "$\x7b" = true → ¬ value.length < 3 →
       resolveValue w key value =
         (goTrimRight (w.exec (markerCmd value)).out,
          (w.exec (markerCmd value)).err.isSome)) ∧
    (strStarts value "$\x7b" = true → value.length < 3 →
       resolveValue w key value = ("", false)) ∧
    (value = "<" →
       resolveValue w key value = ("<", w.getenv key == "")) ∧
    (strStarts value "$\x7b" = false → value ≠ "<" →
       resolveValue w key value = (value, false)) := by
  refine ⟨?_, ?_, ?_, ?_⟩
  · intro h1 h2
    unfold resolveValue
    rw [if_pos h1, if_neg h2]
  · intro h1 h2
    unfold resolveValue
    rw [if_pos h1, if_pos h2]
  · intro h
    subst h
    rfl
  · intro h1 h2
    unfold resolveValue
    rw [if_neg (by simp [h1]), if_neg h2]

/-- Witness for `resolveValue_characterization`: a present `<`
variable keeps the marker, a command marker stores trimmed output, a
literal is unchanged. -/
theorem resolveValue_characterization_witness :
    resolveValue c4EnvW "API_KEY" "<" = ("<", c4EnvW.getenv "API_KEY" == "") ∧
    resolveValue sampleEnvW "HOME_DIR" "$\x7becho hi\x7d" =
      (goTrimRight (sampleEnvW.exec (markerCmd "$\x7becho hi\x7d")).out,
       (sampleEnvW.exec (markerCmd "$\x7becho hi\x7d")).err.isSome) ∧
    resolveValue sampleEnvW "LIT" "plain" = ("plain", false) :=
  ⟨(resolveValue_characterization c4EnvW "API_KEY" "<").2.2.1 rfl,
   (resolveValue_characterization sampleEnvW "HOME_DIR" "$\x7becho hi\x7d").1
     (by decide) (by decide),
   (resolveValue_characterization sampleEnvW "LIT" "plain").2.2.2
     (by decide) (by decide)⟩

/-- Claim C5: environment resolution is a full, never short-circuiting
pass — every entry of every file is resolved independently and the
failure flag is the disjunction of all per-entry failures — and when
the flag is set, `main` exits with status 1 with no listing and no
executor activity (src/main.go lines 97-99 precede lines 117 and
178). -/
theorem env_resolution_accumulates_and_halts :
    (∀ (w : EnvWorld) (files : List ChecklistFile),
       resolveEnvAll w files =
         (files.map fun f =>
            { f with Env := f.Env.map fun kv => (kv.1, (resolveValue w kv.1 kv.2).1) },
          files.any fun f => f.Env.any fun kv => (resolveValue w kv.1 kv.2).2)) ∧
    (∀ (w : MainWorld) (flags : Flags) (args : List String)
       (files : List ChecklistFile) (ub : Bool),
       args ≠ [] →
       loadPhase w args = Except.ok (files, ub) →
       (ub = true → w.CreateRunbookClient = Except.ok ()) →
       (resolveEnvAll w.envW files).2 = true →
       mainModel w flags args = stopped (ExitKind.exit 1) []) := by
  constructor
  · intro w files
    have h1 : ∀ env, (resolveFile w env).1 =
        env.map fun kv => (kv.1, (resolveValue w kv.1 kv.2).1) :=
      fun env => congrArg Prod.fst (resolveFile_map w env)
    have h2 : ∀ env, (resolveFile w env).2 =
        env.any fun kv => (resolveValue w kv.1 kv.2).2 :=
      fun env => congrArg Prod.snd (resolveFile_map w env)
    rw [resolveEnvAll_map]
    simp only [h1, h2]
  · intro w flags args files ub hargs hload hrb hfail
    unfold mainModel
    rw [if_neg (by simpa using hargs), hload]
    cases ub with
    | false => simp [hfail]
    | true => simp [hrb rfl, hfail]

/-- Witness for `env_resolution_accumulates_and_halts`: the
four-marker checklist records failures for `API_KEY` and `BROKEN` yet
both `HOME_DIR` and `LIT` are still resolved, and the full run exits
with status 1 before listing or executing anything. -/
theorem env_resolution_accumulates_and_halts_witness :
    resolveEnvAll sampleEnvW [fileEnv] =
      ([{ fileEnv with Env := [("HOME_DIR", "hi"), ("API_KEY", "<"),
                              ("BROKEN", ""), ("LIT", "plain")] }], true) ∧
    mainModel envMainW sampleFlags ["env.yaml"] = stopped (ExitKind.exit 1) [] := by
  constructor
  · have h := (env_resolution_accumulates_and_halts.1 sampleEnvW [fileEnv])
    rw [h]
    decide
  · exact env_resolution_accumulates_and_halts.2 envMainW sampleFlags ["env.yaml"]
      [fileEnv] false (by decide) rfl (fun h => rfl) rfl

/-- Claim C6: once an active-region item fails (its `processItem` sets
the failure flag, covering both a failing check result and a check
execution error), every later active-region item gets exactly the
single event `Skipped:"ABORTED"` — so none of them is ever executed
(no runner or UX invocation occurs after the failure) — and the final
flag forces exit status 1. -/
theorem failure_aborts_remaining
    (w : ItemWorld) (auto : Bool) (rb : Option Unit)
    (pre post : List ChecklistItem) (it : ChecklistItem)
    (hpre : (runActive w auto rb pre false).2 = false)
    (hfail : (processItem w auto rb it false).2 = true) :
    runActive w auto rb (pre ++ it :: post) false =
      ((runActive w auto rb pre false).1 ++
         (processItem w auto rb it false).1 ::
           (post.map fun j => [Event.skip j "ABORTED"]),
       true) ∧
    (((post.map fun j => [Event.skip j "ABORTED"]).flatten.all
        fun e => !e.isInvoke) = true) ∧
    exitOfFailure (runActive w auto rb (pre ++ it :: post) false).2 = 1 := by
  have hcons : runActive w auto rb (it :: post) false =
      ((processItem w auto rb it false).1 ::
         (post.map fun j => [Event.skip j "ABORTED"]), true) := by
    simp only [runActive]
    rw [hfail, runActive_flagged]
  have hsplit := runActive_append w auto rb pre (it :: post) false
  rw [hpre, hcons] at hsplit
  exact ⟨hsplit, aborted_slots_no_invoke post, by rw [hsplit]; rfl⟩

/-- Witness for `failure_aborts_remaining`: in an unattended run,
`itemA` passes, `itemB`'s check fails, and `itemC` is aborted without
execution; the run exits 1. -/
theorem failure_aborts_remaining_witness :
    runActive sampleItemW true none ([itemA] ++ itemB :: [itemC]) false =
      ((runActive sampleItemW true none [itemA] false).1 ++
         (processItem sampleItemW true none itemB false).1 ::
           ([itemC].map fun j => [Event.skip j "ABORTED"]),
       true) ∧
    ((([itemC].map fun j => [Event.skip j "ABORTED"]).flatten.all
        fun e => !e.isInvoke) = true) ∧
    exitOfFailure (runActive sampleItemW true none ([itemA] ++ itemB :: [itemC]) false).2 = 1 :=
  failure_aborts_remaining sampleItemW true none [itemA] [itemC] itemB
    (by decide) (by decide)

/-- Claim C7: for a skip count `s ≤ n`, exactly the first `s` items
are rendered `Blank` with no execution attempt (the active region
never renders a blank), the remaining `n - s` items each get their own
event slot in order, the Go slice expressions agree with take/drop for
every adequate backing capacity, and `s = n` yields an empty active
region and exit status 0. -/
theorem skip_region_blank_active_processed
    (w : ItemWorld) (auto : Bool) (rb : Option Unit)
    (items : List ChecklistItem) (s : Nat) (hs : s ≤ items.length) :
    ((items.take s).map Event.blank).length = s ∧
    (runItems w auto rb items s).1 =
        ((items.take s).map Event.blank) ++
          (runActive w auto rb (items.drop s) false).1.flatten ∧
    (((runActive w auto rb (items.drop s) false).1.flatten.all
        fun e => !e.isBlank) = true) ∧
    (runActive w auto rb (items.drop s) false).1.length = items.length - s ∧
    (∀ cap, items.length ≤ cap →
       runPhaseGo w auto rb items cap (s : Int) =
         ((runItems w auto rb items s).1, Except.ok (runItems w auto rb items s).2)) ∧
    (s = items.length →
       runItems w auto rb items s = (items.map Event.blank, false) ∧
       exitOfFailure (runItems w auto rb items s).2 = 0) := by
  refine ⟨?_, rfl, runActive_no_blank w auto rb (items.drop s) false, ?_, ?_, ?_⟩
  · simp [List.length_take, Nat.min_eq_left hs]
  · rw [runActive_length]
    simp
  · intro cap hcap
    have hnotneg : ¬((s : Int) < 0 ∨ (cap : Int) < (s : Int)) := by omega
    unfold runPhaseGo
    rw [if_neg hnotneg]
    simp only [Int.toNat_natCast]
    rw [List.take_append_of_le_length hs, if_neg (Nat.not_lt.mpr hs)]
    rfl
  · intro hlen
    have h1 : runItems w auto rb items s = (items.map Event.blank, false) := by
      unfold runItems
      rw [hlen, List.take_length, List.drop_length]
      simp [runActive]
    exact ⟨h1, by rw [h1]; rfl⟩

/-- Witness for `skip_region_blank_active_processed` at `s = 1` of two
items, plus the boundary case `s = n = 2`. -/
theorem skip_region_blank_active_processed_witness :
    ((([itemA, itemB].take 1).map Event.blank).length = 1) ∧
    (runItems sampleItemW true none [itemA, itemB] 1).1 =
      (([itemA, itemB].take 1).map Event.blank) ++
        (runActive sampleItemW true none ([itemA, itemB].drop 1) false).1.flatten ∧
    runItems sampleItemW true none [itemA, itemB] 2 =
      ([itemA, itemB].map Event.blank, false) :=
  ⟨(skip_region_blank_active_processed sampleItemW true none [itemA, itemB] 1
      (by decide)).1,
   (skip_region_blank_active_processed sampleItemW true none [itemA, itemB] 1
      (by decide)).2.1,
   ((skip_region_blank_active_processed sampleItemW true none [itemA, itemB] 2
      (by decide)).2.2.2.2.2 rfl).1⟩

/-- Claim C8: an Env entry whose marker is exactly `$\x7b\x7d` passes
the length guard (length 3 is not < 3), so the empty command between
the marker characters is handed to the shell; provided the shell maps
the empty command to a successful run with empty output (bash does:
`bash -c ""` exits 0 printing nothing), the entry resolves to the
empty string and no resolution failure is recorded. -/
theorem empty_marker_resolves_empty (w : EnvWorld) (key : String)
    (hsh : w.exec "" = ⟨"", none⟩) :
    resolveValue w key "$\x7b\x7d" = ("", false) := by
  have h : resolveValue w key "$\x7b\x7d" =
      (goTrimRight (w.exec "").out, (w.exec "").err.isSome) := rfl
  rw [h, hsh]
  rfl

/-- Witness for `empty_marker_resolves_empty` under a concrete shell
whose empty command succeeds with empty output. -/
theorem empty_marker_resolves_empty_witness :
    resolveValue c4EnvW "ANY_KEY" "$\x7b\x7d" = ("", false) :=
  empty_marker_resolves_empty c4EnvW "ANY_KEY" rfl

/-- Claim C9 counterexample. With three items built by successive
`append` calls the Go runtime leaves a backing array of capacity 4;
for skip count 4 (> n = 3, but ≤ cap) the first slice expression
`allItems[:4]` is legal, the blank loop renders four items (the three
real ones plus a zero-valued backing slot), and only then does
`allItems[4:]` panic — so the run does NOT abort before any item is
rendered, refuting the claim's timing. -/
theorem skip_out_of_range_renders_before_panic :
    ([itemA, itemB, itemC] : List ChecklistItem).length = 3 ∧
    (runPhaseGo sampleItemW true none [itemA, itemB, itemC] 4 4).2 =
      Except.error "slice bounds out of range" ∧
    (runPhaseGo sampleItemW true none [itemA, itemB, itemC] 4 4).1 =
      [Event.blank itemA, Event.blank itemB, Event.blank itemC, Event.blank zeroItem] :=
  ⟨rfl, rfl, rfl⟩

/-- Claim C9 as amended: for a skip count `s < 0` or `s > n` no error
is reported — the run aborts with a slice-bounds runtime panic; the
panic precedes all rendering exactly when `s < 0` or `s` exceeds the
backing capacity, while for `n < s ≤ cap` the blank loop first renders
`s` items (the real items padded with zero-valued backing slots) and
the second slice expression panics afterwards. -/
theorem skip_out_of_range_panics
    (w : ItemWorld) (auto : Bool) (rb : Option Unit)
    (items : List ChecklistItem) (cap : Nat) (s : Int)
    (_hcap : items.length ≤ cap)
    (hout : s < 0 ∨ (items.length : Int) < s) :
    (runPhaseGo w auto rb items cap s).2 = Except.error "slice bounds out of range" ∧
    ((s < 0 ∨ (cap : Int) < s) → (runPhaseGo w auto rb items cap s).1 = []) ∧
    (¬ (s < 0 ∨ (cap : Int) < s) →
       (runPhaseGo w auto rb items cap s).1 =
         ((items ++ List.replicate (cap - items.length) zeroItem).take s.toNat).map
           Event.blank) := by
  unfold runPhaseGo
  by_cases h1 : s < 0 ∨ (cap : Int) < s
  · rw [if_pos h1]
    exact ⟨rfl, fun _ => rfl, fun h => absurd h1 h⟩
  · rw [if_neg h1]
    have hlen : items.length < s.toNat := by omega
    rw [if_pos hlen]
    exact ⟨rfl, fun h => absurd h h1, fun _ => rfl⟩

/-- Witness for `skip_out_of_range_panics`: one item, capacity 1, skip
count 2 — the panic happens with nothing rendered. -/
theorem skip_out_of_range_panics_witness :
    (runPhaseGo sampleItemW true none [itemA] 1 2).2 =
      Except.error "slice bounds out of range" ∧
    (runPhaseGo sampleItemW true none [itemA] 1 2).1 = [] := by
  have h := skip_out_of_range_panics sampleItemW true none [itemA] 1 2
    (by decide) (Or.inr (by decide))
  exact ⟨h.1, h.2.1 (Or.inr (by decide))⟩

/-- Claim C10: for any Env value with the marker head and length at
least 3, the executed command is exactly the text from index 2 up to
(excluding) the final character, whether or not that final character
is `\x7d` — on the claim's example `$\x7becho hi` the command is
`echo h` — the entry is always overwritten with the trimmed captured
output, failure being recorded exactly when execution errored; and the
value `$\x7b` alone resolves to the empty string with no command
executed and no failure. -/
theorem marker_command_extraction :
    (∀ (w : EnvWorld) (key value : String),
       strStarts value "$\x7b" = true → 3 ≤ value.length →
       resolveValue w key value =
         (goTrimRight (w.exec (markerCmd value)).out,
          (w.exec (markerCmd value)).err.isSome)) ∧
    markerCmd "$\x7becho hi" = "echo h" ∧
    (∀ (w : EnvWorld) (key : String), resolveValue w key "$\x7b" = ("", false)) := by
  refine ⟨?_, by decide, fun w key => rfl⟩
  intro w key value h1 h2
  unfold resolveValue
  rw [if_pos h1, if_neg (Nat.not_lt.mpr h2)]

/-- Witness for `marker_command_extraction`: the truncated marker
`$\x7becho hi` really executes `echo h` (which under the sample shell
prints `hi`), stored trimmed with no failure. -/
theorem marker_command_extraction_witness :
    resolveValue sampleEnvW "GREETING" "$\x7becho hi" = ("hi", false) :=
  (marker_command_extraction.1 sampleEnvW "GREETING" "$\x7becho hi"
      (by decide) (by decide)).trans (by decide)

end Preflighter
